import Mathlib

/-!
Shallow embedding of the METAR property/unit type system of the
`aimlsse_api` repository (file `aimlsse_api/data/metar.py`), together with
its dataframe-formatting logic, and proofs of the specified properties.

Python enum classes become Lean inductives; the Python `MetarProperty`
class becomes a structure whose construction is modelled by an explicit
`Except`-returning function mirroring `__init__` (raised exceptions become
`Except.error`); logging a warning is modelled as a returned Boolean flag.
Pandas dataframes are modelled as lists of rows, each row an ordered
association list from column key to a cell value; JSON numbers are
modelled as rationals.
-/

namespace Metar

/-- Decidable equality for `Except`, needed to settle concrete runs of the
embedded fallible operations by `decide`. -/
instance {ε α : Type} [DecidableEq ε] [DecidableEq α] : DecidableEq (Except ε α)
  | .ok x, .ok y =>
      if h : x = y then .isTrue (by rw [h])
      else .isFalse (by intro hc; cases hc; exact h rfl)
  | .ok _, .error _ => .isFalse (by intro hc; cases hc)
  | .error _, .ok _ => .isFalse (by intro hc; cases hc)
  | .error e, .error f =>
      if h : e = f then .isTrue (by rw [h])
      else .isFalse (by intro hc; cases hc; exact h rfl)

/-- Python exception kinds that the modelled code can raise.
`keyError` models `KeyError` (enum name lookup / missing dataframe column),
`typeError` models `TypeError` (calling `None`, iterating a non-iterable,
or an uninterpretable dtype), `valueError` models `ValueError` (invalid
unit at construction, enum value lookup failure, and failed numeric
coercion in `astype`), and `daciteWrongType` models dacite's
`WrongTypeError` for a sub-field of the wrong type. -/
inductive PyError where
  | keyError
  | typeError
  | valueError
  | daciteWrongType
deriving DecidableEq, Repr

/-- Embeds the Python enum `UnitDistance` from metar.py. -/
inductive UnitDistance where
  | STATUTE_MILES
  | MILES
  | METERS
  | KILOMETERS
  | FEET
  | INCHES
deriving DecidableEq, Repr, Fintype

/-- Embeds the Python enum `UnitPrecipitation` from metar.py. -/
inductive UnitPrecipitation where
  | INCHES
  | CENTIMETERS
deriving DecidableEq, Repr, Fintype

/-- Embeds the Python enum `UnitPressure` from metar.py. -/
inductive UnitPressure where
  | MILLIBAR
  | HECTOPASCAL
  | INCHES
deriving DecidableEq, Repr, Fintype

/-- Embeds the Python enum `UnitSpeed` from metar.py. -/
inductive UnitSpeed where
  | KNOTS
  | METERS_PER_SECOND
  | KILOMETERS_PER_HOUR
  | MILES_PER_HOUR
deriving DecidableEq, Repr, Fintype

/-- Embeds the Python enum `UnitTemperature` from metar.py. -/
inductive UnitTemperature where
  | FAHRENHEIT
  | CELSIUS
  | KELVIN
deriving DecidableEq, Repr, Fintype

/-- A value of any of the five unit enums: the Python superclass
`UnitEnum`, of which every concrete unit is an instance. -/
inductive UnitEnum where
  | dist (u : UnitDistance)
  | precip (u : UnitPrecipitation)
  | press (u : UnitPressure)
  | speed (u : UnitSpeed)
  | temp (u : UnitTemperature)
deriving DecidableEq, Repr, Fintype

/-- The five unit enum classes themselves (the possible values of a
property type's `unit_type` attribute when it is not `None`). -/
inductive UnitFamily where
  | Distance
  | Precipitation
  | Pressure
  | Speed
  | Temperature
deriving DecidableEq, Repr, Fintype

/-- The `.value` string of a `UnitDistance` member. -/
def UnitDistance.value : UnitDistance → String
  | .STATUTE_MILES => "SM"
  | .MILES => "MI"
  | .METERS => "M"
  | .KILOMETERS => "KM"
  | .FEET => "FT"
  | .INCHES => "IN"

/-- The `.value` string of a `UnitPrecipitation` member. -/
def UnitPrecipitation.value : UnitPrecipitation → String
  | .INCHES => "IN"
  | .CENTIMETERS => "CM"

/-- The `.value` string of a `UnitPressure` member. -/
def UnitPressure.value : UnitPressure → String
  | .MILLIBAR => "MB"
  | .HECTOPASCAL => "HPA"
  | .INCHES => "IN"

/-- The `.value` string of a `UnitSpeed` member. -/
def UnitSpeed.value : UnitSpeed → String
  | .KNOTS => "KT"
  | .METERS_PER_SECOND => "MPS"
  | .KILOMETERS_PER_HOUR => "KMH"
  | .MILES_PER_HOUR => "MPH"

/-- The `.value` string of a `UnitTemperature` member. -/
def UnitTemperature.value : UnitTemperature → String
  | .FAHRENHEIT => "F"
  | .CELSIUS => "C"
  | .KELVIN => "K"

/-- The `.value` string of any concrete unit. -/
def UnitEnum.value : UnitEnum → String
  | .dist u => u.value
  | .precip u => u.value
  | .press u => u.value
  | .speed u => u.value
  | .temp u => u.value

/-- The enum class a concrete unit belongs to; `isinstance(u, F)` in the
Python code is `u.family = F` here. -/
def UnitEnum.family : UnitEnum → UnitFamily
  | .dist _ => .Distance
  | .precip _ => .Precipitation
  | .press _ => .Pressure
  | .speed _ => .Speed
  | .temp _ => .Temperature

/-- All members of a unit family, in declaration order. -/
def UnitFamily.members : UnitFamily → List UnitEnum
  | .Distance => [.dist .STATUTE_MILES, .dist .MILES, .dist .METERS,
      .dist .KILOMETERS, .dist .FEET, .dist .INCHES]
  | .Precipitation => [.precip .INCHES, .precip .CENTIMETERS]
  | .Pressure => [.press .MILLIBAR, .press .HECTOPASCAL, .press .INCHES]
  | .Speed => [.speed .KNOTS, .speed .METERS_PER_SECOND,
      .speed .KILOMETERS_PER_HOUR, .speed .MILES_PER_HOUR]
  | .Temperature => [.temp .FAHRENHEIT, .temp .CELSIUS, .temp .KELVIN]

/-- Python enum lookup by value, `F('SM')`: the first member of the family
whose `.value` equals the given string, or an error (`ValueError`) when no
member matches. -/
def UnitFamily.fromValue (f : UnitFamily) (s : String) : Except PyError UnitEnum :=
  match f.members.find? (fun u => u.value = s) with
  | some u => .ok u
  | none => .error .valueError

/-- The primitive (scalar) Python value types that appear as `value_type`
of schema entries: `str`, `Optional[str]`, `np.datetime64`, `int`,
`float`. -/
inductive PrimKind where
  | string
  | optString
  | datetime
  | int
  | float
deriving DecidableEq, Repr, Fintype

/-- The three dataclasses declared in metar.py for compound values. -/
inductive DataclassKind where
  | runwayVisibility
  | weather
  | skyConditions
deriving DecidableEq, Repr, Fintype

/-- The `value_type` attribute of a schema entry: a primitive type, one of
the three dataclasses, or `List[str]` (used only by RUNWAY_WINDSHEAR). -/
inductive ValueKind where
  | prim (k : PrimKind)
  | dataclass (d : DataclassKind)
  | listStr
deriving DecidableEq, Repr, Fintype

/-- Embeds the Python enum `MetarPropertyType` from metar.py: one
constructor per member, in declaration order. -/
inductive MetarPropertyType where
  | METAR_CODE
  | REPORT_TYPE
  | REPORT_CORRECTION
  | REPORT_MODE
  | STATION_ID
  | TIME
  | OBSERVATION_CYCLE
  | WIND_DIRECTION
  | WIND_SPEED
  | WIND_GUST_SPEED
  | WIND_DIRECTION_FROM
  | WIND_DIRECTION_TO
  | VISIBILITY
  | VISIBILITY_DIRECTION
  | MAX_VISIBILITY
  | MAX_VISIBILITY_DIRECTION
  | TEMPERATURE
  | DEW_POINT
  | PRESSURE
  | RUNWAY_VISIBILITY
  | CURRENT_WEATHER
  | RECENT_WEATHER
  | SKY_CONDITIONS
  | RUNWAY_WINDSHEAR
  | WIND_SPEED_PEAK
  | WIND_DIRECTION_PEAK
  | PEAK_WIND_TIME
  | WIND_SHIFT_TIME
  | MAX_TEMPERATURE_6H
  | MIN_TEMPERATURE_6H
  | MAX_TEMPERATURE_24H
  | MIN_TEMPERATURE_24H
  | PRESSURE_AT_SEA_LEVEL
  | PRECIPITATION_1H
  | PRECIPITATION_3H
  | PRECIPITATION_6H
  | PRECIPITATION_24H
  | SNOW_DEPTH
  | ICE_ACCRETION_1H
  | ICE_ACCRETION_3H
  | ICE_ACCRETION_6H
deriving DecidableEq, Repr, Fintype

namespace MetarPropertyType

/-- The Python enum member name (`member.name`), used by the name lookup
`MetarPropertyType[s]` in `from_string`. -/
def name : MetarPropertyType → String
  | .METAR_CODE => "METAR_CODE"
  | .REPORT_TYPE => "REPORT_TYPE"
  | .REPORT_CORRECTION => "REPORT_CORRECTION"
  | .REPORT_MODE => "REPORT_MODE"
  | .STATION_ID => "STATION_ID"
  | .TIME => "TIME"
  | .OBSERVATION_CYCLE => "OBSERVATION_CYCLE"
  | .WIND_DIRECTION => "WIND_DIRECTION"
  | .WIND_SPEED => "WIND_SPEED"
  | .WIND_GUST_SPEED => "WIND_GUST_SPEED"
  | .WIND_DIRECTION_FROM => "WIND_DIRECTION_FROM"
  | .WIND_DIRECTION_TO => "WIND_DIRECTION_TO"
  | .VISIBILITY => "VISIBILITY"
  | .VISIBILITY_DIRECTION => "VISIBILITY_DIRECTION"
  | .MAX_VISIBILITY => "MAX_VISIBILITY"
  | .MAX_VISIBILITY_DIRECTION => "MAX_VISIBILITY_DIRECTION"
  | .TEMPERATURE => "TEMPERATURE"
  | .DEW_POINT => "DEW_POINT"
  | .PRESSURE => "PRESSURE"
  | .RUNWAY_VISIBILITY => "RUNWAY_VISIBILITY"
  | .CURRENT_WEATHER => "CURRENT_WEATHER"
  | .RECENT_WEATHER => "RECENT_WEATHER"
  | .SKY_CONDITIONS => "SKY_CONDITIONS"
  | .RUNWAY_WINDSHEAR => "RUNWAY_WINDSHEAR"
  | .WIND_SPEED_PEAK => "WIND_SPEED_PEAK"
  | .WIND_DIRECTION_PEAK => "WIND_DIRECTION_PEAK"
  | .PEAK_WIND_TIME => "PEAK_WIND_TIME"
  | .WIND_SHIFT_TIME => "WIND_SHIFT_TIME"
  | .MAX_TEMPERATURE_6H => "MAX_TEMPERATURE_6H"
  | .MIN_TEMPERATURE_6H => "MIN_TEMPERATURE_6H"
  | .MAX_TEMPERATURE_24H => "MAX_TEMPERATURE_24H"
  | .MIN_TEMPERATURE_24H => "MIN_TEMPERATURE_24H"
  | .PRESSURE_AT_SEA_LEVEL => "PRESSURE_AT_SEA_LEVEL"
  | .PRECIPITATION_1H => "PRECIPITATION_1H"
  | .PRECIPITATION_3H => "PRECIPITATION_3H"
  | .PRECIPITATION_6H => "PRECIPITATION_6H"
  | .PRECIPITATION_24H => "PRECIPITATION_24H"
  | .SNOW_DEPTH => "SNOW_DEPTH"
  | .ICE_ACCRETION_1H => "ICE_ACCRETION_1H"
  | .ICE_ACCRETION_3H => "ICE_ACCRETION_3H"
  | .ICE_ACCRETION_6H => "ICE_ACCRETION_6H"

/-- The first tuple component of each member: `representation_name`. -/
def representation_name : MetarPropertyType → String
  | .METAR_CODE => "metar_code"
  | .REPORT_TYPE => "report_type"
  | .REPORT_CORRECTION => "report_correction"
  | .REPORT_MODE => "report_mode"
  | .STATION_ID => "station_id"
  | .TIME => "time"
  | .OBSERVATION_CYCLE => "observation_cycle"
  | .WIND_DIRECTION => "wind_direction"
  | .WIND_SPEED => "wind_speed"
  | .WIND_GUST_SPEED => "wind_gust_speed"
  | .WIND_DIRECTION_FROM => "wind_direction_from"
  | .WIND_DIRECTION_TO => "wind_direction_to"
  | .VISIBILITY => "visibility"
  | .VISIBILITY_DIRECTION => "visibility_direction"
  | .MAX_VISIBILITY => "max_visibility"
  | .MAX_VISIBILITY_DIRECTION => "max_visibility_direction"
  | .TEMPERATURE => "temperature"
  | .DEW_POINT => "dew_point"
  | .PRESSURE => "pressure"
  | .RUNWAY_VISIBILITY => "runway_visibility"
  | .CURRENT_WEATHER => "current_weather"
  | .RECENT_WEATHER => "recent_weather"
  | .SKY_CONDITIONS => "sky_conditions"
  | .RUNWAY_WINDSHEAR => "runway_windshear"
  | .WIND_SPEED_PEAK => "wind_speed_peak"
  | .WIND_DIRECTION_PEAK => "wind_direction_peak"
  | .PEAK_WIND_TIME => "peak_wind_time"
  | .WIND_SHIFT_TIME => "wind_shift_time"
  | .MAX_TEMPERATURE_6H => "max_temperature_6h"
  | .MIN_TEMPERATURE_6H => "min_temperature_6h"
  | .MAX_TEMPERATURE_24H => "max_temperature_24h"
  | .MIN_TEMPERATURE_24H => "min_temperature_24h"
  | .PRESSURE_AT_SEA_LEVEL => "pressure_at_sea_level"
  | .PRECIPITATION_1H => "precipitation_1h"
  | .PRECIPITATION_3H => "precipitation_3h"
  | .PRECIPITATION_6H => "precipitation_6h"
  | .PRECIPITATION_24H => "precipitation_24h"
  | .SNOW_DEPTH => "snow_depth"
  | .ICE_ACCRETION_1H => "ice_accretion_1h"
  | .ICE_ACCRETION_3H => "ice_accretion_3h"
  | .ICE_ACCRETION_6H => "ice_accretion_6h"

/-- The second tuple component of each member: `value_type`. -/
def get_value_type : MetarPropertyType → ValueKind
  | .METAR_CODE => .prim .string
  | .REPORT_TYPE => .prim .string
  | .REPORT_CORRECTION => .prim .optString
  | .REPORT_MODE => .prim .string
  | .STATION_ID => .prim .string
  | .TIME => .prim .datetime
  | .OBSERVATION_CYCLE => .prim .int
  | .WIND_DIRECTION => .prim .float
  | .WIND_SPEED => .prim .float
  | .WIND_GUST_SPEED => .prim .float
  | .WIND_DIRECTION_FROM => .prim .float
  | .WIND_DIRECTION_TO => .prim .float
  | .VISIBILITY => .prim .float
  | .VISIBILITY_DIRECTION => .prim .float
  | .MAX_VISIBILITY => .prim .float
  | .MAX_VISIBILITY_DIRECTION => .prim .float
  | .TEMPERATURE => .prim .float
  | .DEW_POINT => .prim .float
  | .PRESSURE => .prim .float
  | .RUNWAY_VISIBILITY => .dataclass .runwayVisibility
  | .CURRENT_WEATHER => .dataclass .weather
  | .RECENT_WEATHER => .dataclass .weather
  | .SKY_CONDITIONS => .dataclass .skyConditions
  | .RUNWAY_WINDSHEAR => .listStr
  | .WIND_SPEED_PEAK => .prim .float
  | .WIND_DIRECTION_PEAK => .prim .float
  | .PEAK_WIND_TIME => .prim .datetime
  | .WIND_SHIFT_TIME => .prim .datetime
  | .MAX_TEMPERATURE_6H => .prim .float
  | .MIN_TEMPERATURE_6H => .prim .float
  | .MAX_TEMPERATURE_24H => .prim .float
  | .MIN_TEMPERATURE_24H => .prim .float
  | .PRESSURE_AT_SEA_LEVEL => .prim .float
  | .PRECIPITATION_1H => .prim .float
  | .PRECIPITATION_3H => .prim .float
  | .PRECIPITATION_6H => .prim .float
  | .PRECIPITATION_24H => .prim .float
  | .SNOW_DEPTH => .prim .float
  | .ICE_ACCRETION_1H => .prim .float
  | .ICE_ACCRETION_3H => .prim .float
  | .ICE_ACCRETION_6H => .prim .float

/-- The third tuple component of each member: `unit_type` (`None` when the
member declares no unit family). -/
def get_unit_type : MetarPropertyType → Option UnitFamily
  | .WIND_SPEED => some .Speed
  | .WIND_GUST_SPEED => some .Speed
  | .VISIBILITY => some .Distance
  | .MAX_VISIBILITY => some .Distance
  | .TEMPERATURE => some .Temperature
  | .DEW_POINT => some .Temperature
  | .PRESSURE => some .Pressure
  | .RUNWAY_VISIBILITY => some .Distance
  | .SKY_CONDITIONS => some .Distance
  | .WIND_SPEED_PEAK => some .Speed
  | .MAX_TEMPERATURE_6H => some .Temperature
  | .MIN_TEMPERATURE_6H => some .Temperature
  | .MAX_TEMPERATURE_24H => some .Temperature
  | .MIN_TEMPERATURE_24H => some .Temperature
  | .PRESSURE_AT_SEA_LEVEL => some .Pressure
  | .PRECIPITATION_1H => some .Precipitation
  | .PRECIPITATION_3H => some .Precipitation
  | .PRECIPITATION_6H => some .Precipitation
  | .PRECIPITATION_24H => some .Precipitation
  | .SNOW_DEPTH => some .Distance
  | .ICE_ACCRETION_1H => some .Distance
  | .ICE_ACCRETION_3H => some .Distance
  | .ICE_ACCRETION_6H => some .Distance
  | _ => none

/-- The fourth tuple component of each member: `multi_value` (defaults to
`False`; `True` only for the five members that pass it explicitly). -/
def uses_multiple_values : MetarPropertyType → Bool
  | .RUNWAY_VISIBILITY => true
  | .CURRENT_WEATHER => true
  | .RECENT_WEATHER => true
  | .SKY_CONDITIONS => true
  | .RUNWAY_WINDSHEAR => true
  | _ => false

/-- The fifth tuple component of each member: `multi_entry`. -/
def has_multiple_entries : MetarPropertyType → Bool
  | .RUNWAY_VISIBILITY => true
  | .CURRENT_WEATHER => true
  | .RECENT_WEATHER => true
  | .SKY_CONDITIONS => true
  | _ => false

/-- All enum members, in declaration order. -/
def allMembers : List MetarPropertyType :=
  [.METAR_CODE, .REPORT_TYPE, .REPORT_CORRECTION, .REPORT_MODE, .STATION_ID,
   .TIME, .OBSERVATION_CYCLE, .WIND_DIRECTION, .WIND_SPEED, .WIND_GUST_SPEED,
   .WIND_DIRECTION_FROM, .WIND_DIRECTION_TO, .VISIBILITY, .VISIBILITY_DIRECTION,
   .MAX_VISIBILITY, .MAX_VISIBILITY_DIRECTION, .TEMPERATURE, .DEW_POINT,
   .PRESSURE, .RUNWAY_VISIBILITY, .CURRENT_WEATHER, .RECENT_WEATHER,
   .SKY_CONDITIONS, .RUNWAY_WINDSHEAR, .WIND_SPEED_PEAK, .WIND_DIRECTION_PEAK,
   .PEAK_WIND_TIME, .WIND_SHIFT_TIME, .MAX_TEMPERATURE_6H, .MIN_TEMPERATURE_6H,
   .MAX_TEMPERATURE_24H, .MIN_TEMPERATURE_24H, .PRESSURE_AT_SEA_LEVEL,
   .PRECIPITATION_1H, .PRECIPITATION_3H, .PRECIPITATION_6H, .PRECIPITATION_24H,
   .SNOW_DEPTH, .ICE_ACCRETION_1H, .ICE_ACCRETION_3H, .ICE_ACCRETION_6H]

/-- Python name lookup `MetarPropertyType[s]`: the member whose `.name` is
exactly `s`, or a `KeyError`. -/
def fromName (s : String) : Except PyError MetarPropertyType :=
  match allMembers.find? (fun t => t.name = s) with
  | some t => .ok t
  | none => .error .keyError

/-- The static list returned by `MetarPropertyType.get_values_with_dataclass`. -/
def get_values_with_dataclass : List MetarPropertyType :=
  [.RUNWAY_VISIBILITY, .CURRENT_WEATHER, .RECENT_WEATHER, .SKY_CONDITIONS]

end MetarPropertyType

/-- Python `s.upper()` restricted to the ASCII letters appearing in
representation names (kernel-reducible, unlike `String.toUpper`). -/
def pyUpper (s : String) : String :=
  (s.toList.map Char.toUpper).asString

/-- Python `s.split(' ')`: split at every single space character, keeping
empty segments; never returns an empty list. -/
def pySplitSpaceAux : List Char → List Char → List String
  | [], acc => [acc.reverse.asString]
  | c :: cs, acc =>
      if c = ' ' then acc.reverse.asString :: pySplitSpaceAux cs []
      else pySplitSpaceAux cs (c :: acc)

/-- Python `s.split(' ')` on a `String`. -/
def pySplitSpace (s : String) : List String :=
  pySplitSpaceAux s.toList []

/-- Python slice `s[1:-1]`: drop the first and the last character (the
empty string when the input has fewer than two characters). -/
def pySliceInner (s : String) : String :=
  ((s.toList.drop 1).dropLast).asString

/-- Embeds the Python class `MetarProperty`: a property type together with
the optional unit stored on the instance. Values of this structure arise
only through `MetarProperty.init` (the embedded `__init__`) below. -/
structure MetarProperty where
  type : MetarPropertyType
  unit : Option UnitEnum
deriving DecidableEq, Repr

namespace MetarProperty

/-- The default unit `__init__` assigns for each unit family when the
caller supplies no unit (the if/elif chain on `expected_type`). -/
def familyDefault : UnitFamily → UnitEnum
  | .Distance => .dist .METERS
  | .Precipitation => .precip .CENTIMETERS
  | .Pressure => .press .HECTOPASCAL
  | .Speed => .speed .KILOMETERS_PER_HOUR
  | .Temperature => .temp .CELSIUS

/-- Embeds `MetarProperty.__init__(type, unit)`. Raising `ValueError` is
modelled as `Except.error .valueError`; the call to
`self.logger.warning(...)` on a missing unit is modelled as the Boolean
in the result (`true` exactly when the warning is logged).
With a non-null unit the code requires `expected_type` to be non-`None`
and `isinstance(unit, expected_type)`; with a null unit and a non-`None`
`expected_type` it assigns the family default and warns. -/
def init (type : MetarPropertyType) (unit : Option UnitEnum) :
    Except PyError (MetarProperty × Bool) :=
  match unit with
  | some u =>
      match type.get_unit_type with
      | none => .error .valueError
      | some fam =>
          if u.family = fam then .ok ({ type := type, unit := some u }, false)
          else .error .valueError
  | none =>
      match type.get_unit_type with
      | none => .ok ({ type := type, unit := none }, false)
      | some fam => .ok ({ type := type, unit := some (familyDefault fam) }, true)

/-- Embeds `MetarProperty.__str__`: the representation name alone when the
instance's unit is `None`, otherwise with the bracketed unit value. -/
def toCanonicalString (p : MetarProperty) : String :=
  match p.unit with
  | none => p.type.representation_name
  | some u => p.type.representation_name ++ " [" ++ u.value ++ "]"

/-- Embeds the static method `MetarProperty.from_string`. The code splits
on spaces, resolves `data_strings[0].upper()` by enum-member name (a
failed lookup raises `KeyError`), and only when the split yields exactly
two segments resolves `expected_type(data_strings[1][1:-1])`: when
`expected_type` is `None` that call raises `TypeError`, and when the value
lookup fails it raises `ValueError`. Finally it calls the constructor,
whose warning flag is passed through. -/
def from_string (specification : String) : Except PyError (MetarProperty × Bool) :=
  let data_strings := pySplitSpace specification
  match MetarPropertyType.fromName (pyUpper (data_strings.headD "")) with
  | .error e => .error e
  | .ok type =>
      if data_strings.length = 2 then
        match type.get_unit_type with
        | none => .error .typeError
        | some fam =>
            match fam.fromValue (pySliceInner (data_strings.getD 1 "")) with
            | .error e => .error e
            | .ok u => init type (some u)
      else
        init type none

end MetarProperty

/-- A scalar cell value of the raw response table: JSON null (pandas NaN),
a string, or a number (JSON numbers are modelled as rationals). -/
inductive Scalar where
  | null
  | str (s : String)
  | num (q : Rat)
deriving DecidableEq, Repr

/-- A JSON object as decoded into a Python dict: an ordered association
list from keys to scalar values. -/
abbrev JsonObject := List (String × Scalar)

/-- Embeds the dataclass `DataRunwayVisibility` from metar.py. -/
structure DataRunwayVisibility where
  runway : Option String
  lowest_value : Option Rat
  highest_value : Option Rat
deriving DecidableEq, Repr

/-- Embeds the dataclass `DataWeather` from metar.py. -/
structure DataWeather where
  intensity : Option String
  description : Option String
  precipitation : Option String
  obscuration : Option String
  other : Option String
deriving DecidableEq, Repr

/-- Embeds the dataclass `DataSkyConditions` from metar.py. -/
structure DataSkyConditions where
  cover : Option String
  height : Option Rat
  cloud : Option String
deriving DecidableEq, Repr

/-- A structured record produced by dacite's `from_dict` for one of the
three dataclasses. -/
inductive RecordValue where
  | runwayVisibility (r : DataRunwayVisibility)
  | weather (r : DataWeather)
  | skyConditions (r : DataSkyConditions)
deriving DecidableEq, Repr

/-- A raw or formatted cell of the response table: a scalar, a JSON array
of scalars (list-of-primitive cells such as `runway_windshear`), a JSON
array of objects (multi-value compound cells), a single JSON object, or a
list of structured records (the state of a compound cell after
formatting). -/
inductive Value where
  | scalar (sc : Scalar)
  | arrayScalar (vs : List Scalar)
  | arrayObj (maps : List JsonObject)
  | obj (m : JsonObject)
  | records (rs : List RecordValue)
deriving DecidableEq, Repr

/-- Key lookup in a JSON object (first matching key, as in a Python dict
built from distinct keys). -/
def lookupKey (m : JsonObject) (k : String) : Option Scalar :=
  (m.find? (fun kv => kv.1 = k)).map (fun kv => kv.2)

/-- Dacite field extraction for an `Optional[str]` field: a missing key or
a null value yields `None`; a string is taken as-is; a number is the wrong
type (`WrongTypeError`). -/
def getOptStr (m : JsonObject) (k : String) : Except PyError (Option String) :=
  match lookupKey m k with
  | none => .ok none
  | some .null => .ok none
  | some (.str s) => .ok (some s)
  | some (.num _) => .error .daciteWrongType

/-- Dacite field extraction for an `Optional[float]` field: a missing key
or a null value yields `None`; a number is taken as-is; a string is the
wrong type (`WrongTypeError`). -/
def getOptFloat (m : JsonObject) (k : String) : Except PyError (Option Rat) :=
  match lookupKey m k with
  | none => .ok none
  | some .null => .ok none
  | some (.num q) => .ok (some q)
  | some (.str _) => .error .daciteWrongType

/-- Embeds dacite's `from_dict(dataclass_type, entry)` for the three
dataclasses of metar.py: each declared sub-field is extracted from the
map by name, with absence yielding `None` since every field is Optional. -/
def from_dict : DataclassKind → JsonObject → Except PyError RecordValue
  | .runwayVisibility, m =>
      match getOptStr m "runway" with
      | .error e => .error e
      | .ok runway =>
          match getOptFloat m "lowest_value" with
          | .error e => .error e
          | .ok lo =>
              match getOptFloat m "highest_value" with
              | .error e => .error e
              | .ok hi => .ok (.runwayVisibility ⟨runway, lo, hi⟩)
  | .weather, m =>
      match getOptStr m "intensity" with
      | .error e => .error e
      | .ok intensity =>
          match getOptStr m "description" with
          | .error e => .error e
          | .ok description =>
              match getOptStr m "precipitation" with
              | .error e => .error e
              | .ok precipitation =>
                  match getOptStr m "obscuration" with
                  | .error e => .error e
                  | .ok obscuration =>
                      match getOptStr m "other" with
                      | .error e => .error e
                      | .ok other =>
                          .ok (.weather ⟨intensity, description, precipitation, obscuration, other⟩)
  | .skyConditions, m =>
      match getOptStr m "cover" with
      | .error e => .error e
      | .ok cover =>
          match getOptFloat m "height" with
          | .error e => .error e
          | .ok height =>
              match getOptStr m "cloud" with
              | .error e => .error e
              | .ok cloud => .ok (.skyConditions ⟨cover, height, cloud⟩)

/-- Dacite `from_dict` dispatched on the schema entry's `value_type`: a
non-dataclass type is rejected by dacite. -/
def from_dict_value : ValueKind → JsonObject → Except PyError RecordValue
  | .dataclass d, m => from_dict d m
  | _, _ => .error .daciteWrongType

/-- Error-propagating map over a list, the effect of evaluating a Python
list comprehension whose body may raise. -/
def exMapM {α β : Type} (f : α → Except PyError β) : List α → Except PyError (List β)
  | [] => .ok []
  | a :: as =>
      match f a with
      | .error e => .error e
      | .ok b =>
          match exMapM f as with
          | .error e => .error e
          | .ok bs => .ok (b :: bs)

/-- Embeds the cell transformation
`lambda x: [from_dict(dataclass_type, entry) for entry in x]` applied by
`format_dataframe` to compound columns. Iterating a JSON array of objects
converts each object; a non-iterable scalar (NaN or a number) raises
`TypeError`, and an empty string iterates zero times — both exactly as in
Python. The remaining branches (a non-empty string cell, a single object
cell, an already-converted cell, an array of scalars) are modelled
conservatively as errors: real dacite, whose membership test on a string
entry finds none of these dataclasses' field names, would mostly yield
all-None records there; no cell of any settled claim takes these
branches. -/
def transformCompound (vk : ValueKind) : Value → Except PyError Value
  | .arrayObj maps =>
      match exMapM (from_dict_value vk) maps with
      | .error e => .error e
      | .ok rs => .ok (.records rs)
  | .scalar (.str s) => if s.isEmpty then .ok (.records []) else .error .daciteWrongType
  | .scalar _ => .error .typeError
  | _ => .error .daciteWrongType

/-- A decimal digit test on characters (kernel-reducible). -/
def isAsciiDigit (c : Char) : Bool := '0' ≤ c && c ≤ '9'

/-- The natural number denoted by a list of decimal digits. -/
def digitsToNat (l : List Char) : Nat :=
  l.foldl (fun acc c => acc * 10 + (c.toNat - 48)) 0

/-- Parse an unsigned decimal literal (digits with an optional fractional
part) into a scaled numerator and a power-of-ten denominator. -/
def parseDecimalParts (cs : List Char) : Option (Nat × Nat) :=
  let intPart := cs.takeWhile isAsciiDigit
  let rest := cs.dropWhile isAsciiDigit
  match rest with
  | [] => if intPart.isEmpty then none else some (digitsToNat intPart, 1)
  | '.' :: frac =>
      if frac.all isAsciiDigit && !(intPart.isEmpty && frac.isEmpty) then
        some (digitsToNat intPart * 10 ^ frac.length + digitsToNat frac, 10 ^ frac.length)
      else none
  | _ => none

/-- Models the string-to-float conversion performed by
`astype(float)` (Python `float(s)`) on plain decimal literals, with an
optional sign; exponent notation and the special spellings `inf`/`nan`
are outside the modelled fragment, and are simply rejected like any
non-numeric text. The parsed value is exact, as a rational. -/
def parsePyFloat (s : String) : Option Rat :=
  match s.toList with
  | '-' :: cs => (parseDecimalParts cs).map (fun p => mkRat (-(p.1 : Int)) p.2)
  | '+' :: cs => (parseDecimalParts cs).map (fun p => mkRat ((p.1 : Int)) p.2)
  | cs => (parseDecimalParts cs).map (fun p => mkRat ((p.1 : Int)) p.2)

/-- Models the string-to-int conversion performed by `astype(int)`:
an optional sign followed by decimal digits. -/
def parsePyInt (s : String) : Option Int :=
  match s.toList with
  | '-' :: cs =>
      if !cs.isEmpty && cs.all isAsciiDigit then some (-(digitsToNat cs : Int)) else none
  | '+' :: cs =>
      if !cs.isEmpty && cs.all isAsciiDigit then some ((digitsToNat cs : Int)) else none
  | cs =>
      if !cs.isEmpty && cs.all isAsciiDigit then some ((digitsToNat cs : Int)) else none

/-- Truncation toward zero of a rational, the numpy float-to-int cast. -/
def ratTrunc (q : Rat) : Int :=
  if q.num < 0 then -(((q.num.natAbs / q.den : Nat) : Int))
  else ((q.num.natAbs / q.den : Nat) : Int)

/-- Models `astype` coercion of one scalar cell to the declared
`value_type` of a schema entry. Floats: numbers pass through, numeric
strings are parsed, NaN stays NaN, non-numeric strings raise
(`ValueError`, the `TypeCoercionError` of the specification). Ints:
floats truncate, integer strings are parsed, NaN raises. Strings: cells
are stringified. `typing.Optional[str]` (the declared type of
REPORT_CORRECTION) is not an interpretable dtype: `astype` with it
raises `TypeError` in every pandas version, whatever the cell holds.
Casting to the unit-less `np.datetime64` dtype is version-dependent in
the unpinned pandas (modern pandas rejects it with `ValueError`, older
pandas converts string cells and raises on unparseable text) and is
never a value-preserving success; it is modelled as the modern-pandas
raise. A dataclass or `List[str]` dtype argument is likewise not
interpretable and raises `TypeError`, though `format_dataframe` never
places one in its retyping dict. -/
def coerceScalar : ValueKind → Scalar → Except PyError Scalar
  | .prim .float, .num q => .ok (.num q)
  | .prim .float, .str s =>
      match parsePyFloat s with
      | some q => .ok (.num q)
      | none => .error .valueError
  | .prim .float, .null => .ok .null
  | .prim .int, .num q => .ok (.num (mkRat (ratTrunc q) 1))
  | .prim .int, .str s =>
      match parsePyInt s with
      | some n => .ok (.num (mkRat n 1))
      | none => .error .valueError
  | .prim .int, .null => .error .valueError
  | .prim .string, .str s => .ok (.str s)
  | .prim .string, .num q => .ok (.str (toString q))
  | .prim .string, .null => .ok (.str "nan")
  | .prim .optString, _ => .error .typeError
  | .prim .datetime, _ => .error .valueError
  | .dataclass _, _ => .error .typeError
  | .listStr, _ => .error .typeError

/-- The `astype` coercion of a full cell: only scalar cells can be
retyped; a cell holding a collection makes the cast raise. -/
def coerceCell (vk : ValueKind) : Value → Except PyError Value
  | .scalar sc =>
      match coerceScalar vk sc with
      | .error e => .error e
      | .ok sc2 => .ok (.scalar sc2)
  | _ => .error .typeError

/-- One row of the modelled dataframe: an ordered association list from
column key to cell value. -/
abbrev Row := List (String × Value)

/-- The modelled dataframe: rows in order, each an association list of
columns (every row of a well-formed table has the same keys). -/
abbrev DataFrame := List Row

/-- Read the cell of a row at a column key (first matching column). -/
def getCell : Row → String → Option Value
  | [], _ => none
  | kv :: rest, k => if kv.1 = k then some kv.2 else getCell rest k

/-- Replace the cell of a row at a column key, leaving other columns
untouched. -/
def setCell : Row → String → Value → Row
  | [], _, _ => []
  | kv :: rest, k, v => (if kv.1 = k then (kv.1, v) else kv) :: setCell rest k v

/-- Apply a fallible cell transformation to the cell of one row at a
column key: a missing column raises `KeyError`. -/
def applyRow (k : String) (f : Value → Except PyError Value) (row : Row) :
    Except PyError Row :=
  match getCell row k with
  | none => .error .keyError
  | some v =>
      match f v with
      | .error e => .error e
      | .ok v2 => .ok (setCell row k v2)

/-- Apply a fallible cell transformation to one column of every row, as
`data[c].apply(f)` / `data.astype({c: t})` do: a missing column raises
`KeyError`, a failing cell fails the whole table. -/
def applyColumn (k : String) (f : Value → Except PyError Value) (df : DataFrame) :
    Except PyError DataFrame :=
  exMapM (applyRow k f) df

namespace MetarPandas

/-- Models `data.infer_objects()`: a dtype-level soft conversion that
leaves every cell value unchanged, hence the identity in this value-level
model. -/
def infer_objects (df : DataFrame) : DataFrame := df

/-- Python dict insertion `d[k] = v`: replace the value of an existing
key, else append the binding (insertion order preserved). -/
def dictInsert (d : List (String × ValueKind)) (k : String) (v : ValueKind) :
    List (String × ValueKind) :=
  if d.any (fun kv => kv.1 = k) then d.map (fun kv => if kv.1 = k then (kv.1, v) else kv)
  else d ++ [(k, v)]

/-- The loop of `format_dataframe` over the requested properties: a
property whose type is in `get_values_with_dataclass` has its column
rebuilt through `from_dict` immediately; any other property except
`RUNWAY_WINDSHEAR` adds its column and `value_type` to the retyping
dict. -/
def format_loop (df : DataFrame) (retyping_dict : List (String × ValueKind)) :
    List MetarProperty → Except PyError (DataFrame × List (String × ValueKind))
  | [] => .ok (df, retyping_dict)
  | prop :: rest =>
      let column_name := prop.toCanonicalString
      if prop.type ∈ MetarPropertyType.get_values_with_dataclass then
        match applyColumn column_name (transformCompound prop.type.get_value_type) df with
        | .error e => .error e
        | .ok df2 => format_loop df2 retyping_dict rest
      else if prop.type = MetarPropertyType.RUNWAY_WINDSHEAR then
        format_loop df retyping_dict rest
      else
        format_loop df (dictInsert retyping_dict column_name prop.type.get_value_type) rest

/-- Models `data.astype(retyping_dict)`: coerce each listed column in
dict order. -/
def astype (df : DataFrame) : List (String × ValueKind) → Except PyError DataFrame
  | [] => .ok df
  | (k, vk) :: rest =>
      match applyColumn k (coerceCell vk) df with
      | .error e => .error e
      | .ok df2 => astype df2 rest

/-- Embeds `MetarPandas.format_dataframe` from metar.py. -/
def format_dataframe (data : DataFrame) (properties : List MetarProperty) :
    Except PyError DataFrame :=
  match format_loop (infer_objects data) [] properties with
  | .error e => .error e
  | .ok (data2, retyping_dict) => astype data2 retyping_dict

end MetarPandas

/-- The family default is a member of its own family. -/
theorem familyDefault_family (fam : UnitFamily) :
    (MetarProperty.familyDefault fam).family = fam := by
  cases fam <;> rfl

/-- C1: for every property schema entry that declares a unit family, and
every unit belonging to that family, constructing a MetarProperty with
that unit succeeds (with no warning), and parsing its canonical string
back with `from_string` yields an equivalent instance: the same property
type and the same unit. -/
theorem c1_unit_family_roundtrip :
    ∀ t : MetarPropertyType, ∀ fam : UnitFamily, t.get_unit_type = some fam →
    ∀ u : UnitEnum, u.family = fam →
    MetarProperty.init t (some u) = .ok ({ type := t, unit := some u }, false) ∧
    MetarProperty.from_string
        (MetarProperty.toCanonicalString { type := t, unit := some u }) =
      .ok ({ type := t, unit := some u }, false) := by decide

/-- Witness for C1 at TEMPERATURE with unit CELSIUS. -/
theorem c1_unit_family_roundtrip_witness :
    MetarPropertyType.TEMPERATURE.get_unit_type = some UnitFamily.Temperature ∧
    (UnitEnum.temp .CELSIUS).family = UnitFamily.Temperature ∧
    (MetarProperty.init .TEMPERATURE (some (.temp .CELSIUS)) =
        .ok ({ type := .TEMPERATURE, unit := some (.temp .CELSIUS) }, false) ∧
      MetarProperty.from_string
          (MetarProperty.toCanonicalString
            { type := .TEMPERATURE, unit := some (.temp .CELSIUS) }) =
        .ok ({ type := .TEMPERATURE, unit := some (.temp .CELSIUS) }, false)) :=
  ⟨by decide, by decide,
    c1_unit_family_roundtrip .TEMPERATURE .Temperature (by decide) (.temp .CELSIUS) (by decide)⟩

/-- C2: supplying a unit whose family is not the entry's declared family
(including every unit supplied to an entry declaring no family) makes the
constructor fail with the `ValueError` modelling `InvalidUnit`; and every
successfully constructed instance carries either no unit or a unit of
exactly the entry's declared family, so no reachable instance is
mismatched. -/
theorem c2_unit_mismatch_rejected :
    (∀ t : MetarPropertyType, ∀ u : UnitEnum,
      (∀ fam, t.get_unit_type = some fam → u.family ≠ fam) →
      MetarProperty.init t (some u) = .error .valueError) ∧
    (∀ t : MetarPropertyType, ∀ uopt : Option UnitEnum, ∀ p w,
      MetarProperty.init t uopt = .ok (p, w) →
      p.type = t ∧ ∀ u, p.unit = some u → t.get_unit_type = some u.family) := by
  constructor
  · decide
  · intro t uopt p w h
    cases uopt with
    | some u0 =>
        cases hf : t.get_unit_type with
        | none => simp [MetarProperty.init, hf] at h
        | some fam =>
            by_cases hfam : u0.family = fam
            · simp [MetarProperty.init, hf, hfam] at h
              obtain ⟨hp, hw⟩ := h
              subst hp
              refine ⟨rfl, ?_⟩
              intro u hu
              cases hu
              rw [hfam]
            · simp [MetarProperty.init, hf, hfam] at h
    | none =>
        cases hf : t.get_unit_type with
        | none =>
            simp [MetarProperty.init, hf] at h
            obtain ⟨hp, hw⟩ := h
            subst hp
            exact ⟨rfl, by intro u hu; cases hu⟩
        | some fam =>
            simp [MetarProperty.init, hf] at h
            obtain ⟨hp, hw⟩ := h
            subst hp
            refine ⟨rfl, ?_⟩
            intro u hu
            cases hu
            rw [familyDefault_family]

/-- Witness for C2: the Speed unit KNOTS is rejected by TEMPERATURE, and
the instance constructed by defaulting carries a unit of the declared
family. -/
theorem c2_unit_mismatch_rejected_witness :
    (∀ fam, MetarPropertyType.TEMPERATURE.get_unit_type = some fam →
      (UnitEnum.speed .KNOTS).family ≠ fam) ∧
    MetarProperty.init .TEMPERATURE (some (.speed .KNOTS)) = .error .valueError ∧
    MetarProperty.init .TEMPERATURE none =
      .ok ({ type := .TEMPERATURE, unit := some (.temp .CELSIUS) }, true) ∧
    ({ type := .TEMPERATURE, unit := some (.temp .CELSIUS) } : MetarProperty).type =
        .TEMPERATURE ∧
    (∀ u, ({ type := .TEMPERATURE, unit := some (.temp .CELSIUS) } : MetarProperty).unit =
        some u → MetarPropertyType.TEMPERATURE.get_unit_type = some u.family) :=
  ⟨by decide,
    c2_unit_mismatch_rejected.1 .TEMPERATURE (.speed .KNOTS) (by decide),
    by decide,
    (c2_unit_mismatch_rejected.2 .TEMPERATURE none _ true (by decide)).1,
    (c2_unit_mismatch_rejected.2 .TEMPERATURE none _ true (by decide)).2⟩

/-- C3: for every entry with a unit family, constructing with the unit
omitted succeeds, logs the warning (the `true` flag), and assigns exactly
the family default, the defaults being METERS, CENTIMETERS, HECTOPASCAL,
KILOMETERS_PER_HOUR and CELSIUS; in particular SKY_CONDITIONS, whose
family is UnitDistance, defaults to METERS. -/
theorem c3_missing_unit_defaults :
    (∀ t : MetarPropertyType, ∀ fam, t.get_unit_type = some fam →
      MetarProperty.init t none =
        .ok ({ type := t, unit := some (MetarProperty.familyDefault fam) }, true)) ∧
    MetarProperty.familyDefault .Distance = .dist .METERS ∧
    MetarProperty.familyDefault .Precipitation = .precip .CENTIMETERS ∧
    MetarProperty.familyDefault .Pressure = .press .HECTOPASCAL ∧
    MetarProperty.familyDefault .Speed = .speed .KILOMETERS_PER_HOUR ∧
    MetarProperty.familyDefault .Temperature = .temp .CELSIUS ∧
    MetarProperty.init .SKY_CONDITIONS none =
      .ok ({ type := .SKY_CONDITIONS, unit := some (.dist .METERS) }, true) := by
  refine ⟨by decide, by decide, by decide, by decide, by decide, by decide, by decide⟩

/-- Witness for C3 at SKY_CONDITIONS, whose family is Distance. -/
theorem c3_missing_unit_defaults_witness :
    MetarPropertyType.SKY_CONDITIONS.get_unit_type = some UnitFamily.Distance ∧
    MetarProperty.init .SKY_CONDITIONS none =
      .ok ({ type := .SKY_CONDITIONS,
             unit := some (MetarProperty.familyDefault .Distance) }, true) :=
  ⟨by decide, c3_missing_unit_defaults.1 .SKY_CONDITIONS .Distance (by decide)⟩

/-- C4: the canonical string of an instance is the representation name
alone when its unit is `None`, and otherwise the representation name, a
space, and the bracketed unit symbol; and for every entry declaring a
unit family, construction with the unit omitted assigns the default
before encoding, so the encoded string still ends in a bracketed unit
segment. -/
theorem c4_canonical_string :
    (∀ p : MetarProperty,
      (p.unit = none → p.toCanonicalString = p.type.representation_name) ∧
      (∀ u, p.unit = some u →
        p.toCanonicalString = p.type.representation_name ++ " [" ++ u.value ++ "]")) ∧
    (∀ t : MetarPropertyType, ∀ fam, t.get_unit_type = some fam →
      MetarProperty.init t none =
        .ok ({ type := t, unit := some (MetarProperty.familyDefault fam) }, true) ∧
      MetarProperty.toCanonicalString
          { type := t, unit := some (MetarProperty.familyDefault fam) } =
        t.representation_name ++ " [" ++ (MetarProperty.familyDefault fam).value ++ "]") := by
  constructor
  · intro p
    constructor
    · intro h
      simp only [MetarProperty.toCanonicalString, h]
    · intro u h
      simp only [MetarProperty.toCanonicalString, h]
  · decide

/-- Witness for C4 at an instance with a unit, one without, and the
defaulted encoding of WIND_SPEED. -/
theorem c4_canonical_string_witness :
    (({ type := .WIND_DIRECTION, unit := none } : MetarProperty).unit = none →
      MetarProperty.toCanonicalString { type := .WIND_DIRECTION, unit := none } =
        MetarPropertyType.WIND_DIRECTION.representation_name) ∧
    MetarPropertyType.WIND_SPEED.get_unit_type = some UnitFamily.Speed ∧
    (MetarProperty.init .WIND_SPEED none =
        .ok ({ type := .WIND_SPEED,
               unit := some (MetarProperty.familyDefault .Speed) }, true) ∧
      MetarProperty.toCanonicalString
          { type := .WIND_SPEED, unit := some (MetarProperty.familyDefault .Speed) } =
        MetarPropertyType.WIND_SPEED.representation_name ++ " [" ++
          (MetarProperty.familyDefault .Speed).value ++ "]") :=
  ⟨(c4_canonical_string.1 { type := .WIND_DIRECTION, unit := none }).1,
    by decide,
    c4_canonical_string.2 .WIND_SPEED .Speed (by decide)⟩

/-- C5: `from_string` fails with the `KeyError` modelling
UnknownProperty / MalformedPropertyString whenever the upper-cased name
segment does not resolve against the schema, and, on a two-segment input
whose resolved entry declares a unit family, fails with the `ValueError`
modelling UnknownUnit whenever the bracketed unit symbol does not resolve
within that family; in both cases nothing is silently substituted. -/
theorem c5_parse_failures :
    (∀ s, MetarPropertyType.fromName (pyUpper ((pySplitSpace s).headD "")) =
        .error .keyError →
      MetarProperty.from_string s = .error .keyError) ∧
    (∀ s t fam, (pySplitSpace s).length = 2 →
      MetarPropertyType.fromName (pyUpper ((pySplitSpace s).headD "")) = .ok t →
      t.get_unit_type = some fam →
      fam.fromValue (pySliceInner ((pySplitSpace s).getD 1 "")) = .error .valueError →
      MetarProperty.from_string s = .error .valueError) := by
  constructor
  · intro s h
    simp only [MetarProperty.from_string, h]
  · intro s t fam hlen ht hfam hu
    simp only [MetarProperty.from_string, ht, hlen, if_true, hfam, hu]

/-- Witness for C5: the unknown name "bogus" and the unknown Temperature
symbol in "temperature [X]". -/
theorem c5_parse_failures_witness :
    MetarPropertyType.fromName (pyUpper ((pySplitSpace "bogus").headD "")) =
        .error .keyError ∧
    MetarProperty.from_string "bogus" = .error .keyError ∧
    ((pySplitSpace "temperature [X]").length = 2 ∧
      MetarPropertyType.fromName (pyUpper ((pySplitSpace "temperature [X]").headD "")) =
        .ok .TEMPERATURE ∧
      MetarPropertyType.TEMPERATURE.get_unit_type = some UnitFamily.Temperature ∧
      UnitFamily.Temperature.fromValue
          (pySliceInner ((pySplitSpace "temperature [X]").getD 1 "")) =
        .error .valueError ∧
      MetarProperty.from_string "temperature [X]" = .error .valueError) :=
  ⟨by decide, c5_parse_failures.1 "bogus" (by decide),
    by decide, by decide, by decide, by decide,
    c5_parse_failures.2 "temperature [X]" .TEMPERATURE .Temperature
      (by decide) (by decide) (by decide) (by decide)⟩

/-- C9 counterexample: for WIND_DIRECTION, an entry declaring no unit
family, `from_string "wind_direction [deg]"` does not succeed as the
claim states: the code reaches `expected_type(data_strings[1][1:-1])`
with `expected_type = None` and raises `TypeError`. -/
theorem c9_counterexample :
    MetarProperty.from_string "wind_direction [deg]" = .error .typeError := by decide

/-- C9 amended: for every entry declaring no unit family, applying
`from_string` to a two-segment input whose name segment resolves to that
entry always fails with `TypeError`, because the code unconditionally
applies the entry's (absent) unit family to the second segment instead of
skipping unit resolution. -/
theorem c9_no_family_bracket_fails :
    ∀ s t, (pySplitSpace s).length = 2 →
    MetarPropertyType.fromName (pyUpper ((pySplitSpace s).headD "")) = .ok t →
    t.get_unit_type = none →
    MetarProperty.from_string s = .error .typeError := by
  intro s t hlen ht hf
  simp only [MetarProperty.from_string, ht, hlen, if_true, hf]

/-- Witness for the amended C9 at "wind_direction [deg]". -/
theorem c9_no_family_bracket_fails_witness :
    (pySplitSpace "wind_direction [deg]").length = 2 ∧
    MetarPropertyType.fromName
        (pyUpper ((pySplitSpace "wind_direction [deg]").headD "")) =
      .ok .WIND_DIRECTION ∧
    MetarPropertyType.WIND_DIRECTION.get_unit_type = none ∧
    MetarProperty.from_string "wind_direction [deg]" = .error .typeError :=
  ⟨by decide, by decide, by decide,
    c9_no_family_bracket_fails "wind_direction [deg]" .WIND_DIRECTION
      (by decide) (by decide) (by decide)⟩

/-- C10: on any input whose space-split has a number of segments other
than two, `from_string` ignores everything after the first segment and
never resolves a unit: when the first segment resolves, the result is
exactly the constructor applied with no unit, so an entry declaring a
unit family receives the family default together with the missing-unit
warning; concretely, "wind_speed [KT] x" yields WIND_SPEED with
KILOMETERS_PER_HOUR and the warning, not KNOTS. -/
theorem c10_extra_segments_ignored :
    (∀ s t, (pySplitSpace s).length ≠ 2 →
      MetarPropertyType.fromName (pyUpper ((pySplitSpace s).headD "")) = .ok t →
      MetarProperty.from_string s = MetarProperty.init t none) ∧
    MetarProperty.from_string "wind_speed [KT] x" =
      .ok ({ type := .WIND_SPEED, unit := some (.speed .KILOMETERS_PER_HOUR) }, true) := by
  constructor
  · intro s t hlen ht
    simp only [MetarProperty.from_string, ht, if_neg hlen]
  · decide

/-- Witness for C10 at the three-segment input "wind_speed [KT] x". -/
theorem c10_extra_segments_ignored_witness :
    (pySplitSpace "wind_speed [KT] x").length ≠ 2 ∧
    MetarPropertyType.fromName
        (pyUpper ((pySplitSpace "wind_speed [KT] x").headD "")) = .ok .WIND_SPEED ∧
    MetarProperty.from_string "wind_speed [KT] x" =
      MetarProperty.init .WIND_SPEED none :=
  ⟨by decide, by decide,
    c10_extra_segments_ignored.1 "wind_speed [KT] x" .WIND_SPEED (by decide) (by decide)⟩

/-- A successful `exMapM` produces one output per input, in order. -/
theorem exMapM_ok {α β : Type} (f : α → Except PyError β) :
    ∀ l l2, exMapM f l = .ok l2 →
      l2.length = l.length ∧
      ∀ i a, l.get? i = some a → ∃ b, l2.get? i = some b ∧ f a = .ok b := by
  intro l
  induction l with
  | nil =>
      intro l2 h
      simp only [exMapM] at h
      cases h
      exact ⟨rfl, by intro i a ha; simp at ha⟩
  | cons a as ih =>
      intro l2 h
      cases hfa : f a with
      | error e => simp [exMapM, hfa] at h
      | ok b =>
          cases hrec : exMapM f as with
          | error e => simp [exMapM, hfa, hrec] at h
          | ok bs =>
              simp only [exMapM, hfa, hrec] at h
              cases h
              obtain ⟨ihlen, ihpt⟩ := ih bs hrec
              constructor
              · simp [ihlen]
              · intro i x hx
                cases i with
                | zero =>
                    simp only [List.get?_cons_zero, Option.some.injEq] at hx
                    subst hx
                    exact ⟨b, rfl, hfa⟩
                | succ n =>
                    simp only [List.get?_cons_succ] at hx ⊢
                    exact ihpt n x hx

/-- Reading a column other than the one written leaves the row unchanged. -/
theorem getCell_setCell_ne (c k : String) (v : Value) (h : k ≠ c) :
    ∀ row : Row, getCell (setCell row c v) k = getCell row k := by
  intro row
  induction row with
  | nil => rfl
  | cons kv rest ih =>
      by_cases hk : kv.1 = c
      · have hkk : ¬ (kv.1 = k) := by
          rw [hk]
          exact fun hck => h hck.symm
        simp only [setCell, getCell, if_pos hk, if_neg hkk, ih]
      · simp only [setCell, getCell, if_neg hk, ih]

/-- A successful `applyRow` alters no column other than the given one. -/
theorem applyRow_ok (k : String) (f : Value → Except PyError Value) (row row2 : Row)
    (h : applyRow k f row = .ok row2) :
    ∀ k2, k2 ≠ k → getCell row2 k2 = getCell row k2 := by
  intro k2 hk2
  unfold applyRow at h
  split at h
  · exact absurd h (by simp)
  · split at h
    · exact absurd h (by simp)
    · cases h
      exact getCell_setCell_ne k k2 _ hk2 row

/-- A successful `applyColumn` preserves the row count, the row order, and
every column other than the given one. -/
theorem applyColumn_ok (k : String) (f : Value → Except PyError Value)
    (df df2 : DataFrame) (h : applyColumn k f df = .ok df2) :
    df2.length = df.length ∧
    ∀ i k2, k2 ≠ k →
      (df2.get? i).map (fun row => getCell row k2) =
        (df.get? i).map (fun row => getCell row k2) := by
  obtain ⟨hlen, hpt⟩ := exMapM_ok (applyRow k f) df df2 h
  refine ⟨hlen, ?_⟩
  intro i k2 hk2
  cases hrow : df.get? i with
  | none =>
      have h2 : df2.get? i = none := by
        rw [List.get?_eq_none] at hrow ⊢
        omega
      rw [h2]
  | some row =>
      obtain ⟨row2, hrow2, hap⟩ := hpt i row hrow
      have hval := applyRow_ok k f row row2 hap k2 hk2
      simp only [hrow2, Option.map_some']
      rw [hval]

/-- The keys of `dictInsert d k v` are those of `d` plus possibly `k`. -/
theorem mem_keys_dictInsert (d : List (String × ValueKind)) (k : String)
    (v : ValueKind) (s : String) :
    s ∈ (MetarPandas.dictInsert d k v).map Prod.fst → s ∈ d.map Prod.fst ∨ s = k := by
  unfold MetarPandas.dictInsert
  split
  · intro h
    rw [List.map_map] at h
    rw [List.mem_map] at h
    obtain ⟨kv, hkv, heq⟩ := h
    left
    rw [List.mem_map]
    refine ⟨kv, hkv, ?_⟩
    by_cases hk : kv.1 = k
    · rw [← heq]
      simp [hk]
    · rw [← heq]
      simp [hk]
  · intro h
    rw [List.map_append, List.mem_append] at h
    cases h with
    | inl h2 => exact Or.inl h2
    | inr h2 =>
        right
        simpa using h2

/-- A successful `format_loop` preserves the row count, the row order, and
every column not named by a processed property; moreover every key of the
final retyping dict comes from the initial dict or is the canonical string
of a processed property. -/
theorem format_loop_ok :
    ∀ (props : List MetarProperty) (df : DataFrame)
      (dict : List (String × ValueKind)) df2 dict2,
      MetarPandas.format_loop df dict props = .ok (df2, dict2) →
      df2.length = df.length ∧
      (∀ i k, (∀ p ∈ props, MetarProperty.toCanonicalString p ≠ k) →
        (df2.get? i).map (fun row => getCell row k) =
          (df.get? i).map (fun row => getCell row k)) ∧
      (∀ s, s ∈ dict2.map Prod.fst →
        s ∈ dict.map Prod.fst ∨ ∃ p ∈ props, s = MetarProperty.toCanonicalString p) := by
  intro props
  induction props with
  | nil =>
      intro df dict df2 dict2 h
      simp only [MetarPandas.format_loop] at h
      cases h
      refine ⟨rfl, by intro i k _; rfl, ?_⟩
      intro s hs
      exact Or.inl hs
  | cons p rest ih =>
      intro df dict df2 dict2 h
      simp only [MetarPandas.format_loop] at h
      split at h
      · -- dataclass branch
        split at h
        · exact absurd h (by simp)
        · rename_i df1 hap
          obtain ⟨ihlen, ihpt, ihdict⟩ := ih df1 dict df2 dict2 h
          obtain ⟨aplen, appt⟩ :=
            applyColumn_ok p.toCanonicalString
              (transformCompound p.type.get_value_type) df df1 hap
          refine ⟨by rw [ihlen, aplen], ?_, ?_⟩
          · intro i k hk
            have hkp : k ≠ MetarProperty.toCanonicalString p :=
              fun hkk => (hk p (List.mem_cons_self p rest)) hkk.symm
            rw [ihpt i k (fun q hq => hk q (List.mem_cons_of_mem p hq))]
            exact appt i k hkp
          · intro s hs
            cases ihdict s hs with
            | inl h2 => exact Or.inl h2
            | inr h2 =>
                obtain ⟨q, hq, hsq⟩ := h2
                exact Or.inr ⟨q, List.mem_cons_of_mem p hq, hsq⟩
      · split at h
        · -- RUNWAY_WINDSHEAR branch: nothing happens
          obtain ⟨ihlen, ihpt, ihdict⟩ := ih df dict df2 dict2 h
          refine ⟨ihlen, ?_, ?_⟩
          · intro i k hk
            exact ihpt i k (fun q hq => hk q (List.mem_cons_of_mem p hq))
          · intro s hs
            cases ihdict s hs with
            | inl h2 => exact Or.inl h2
            | inr h2 =>
                obtain ⟨q, hq, hsq⟩ := h2
                exact Or.inr ⟨q, List.mem_cons_of_mem p hq, hsq⟩
        · -- scalar branch: retyping dict grows
          obtain ⟨ihlen, ihpt, ihdict⟩ :=
            ih df (MetarPandas.dictInsert dict p.toCanonicalString
              p.type.get_value_type) df2 dict2 h
          refine ⟨ihlen, ?_, ?_⟩
          · intro i k hk
            exact ihpt i k (fun q hq => hk q (List.mem_cons_of_mem p hq))
          · intro s hs
            cases ihdict s hs with
            | inl h2 =>
                cases mem_keys_dictInsert dict p.toCanonicalString
                    p.type.get_value_type s h2 with
                | inl h3 => exact Or.inl h3
                | inr h3 => exact Or.inr ⟨p, List.mem_cons_self p rest, h3⟩
            | inr h2 =>
                obtain ⟨q, hq, hsq⟩ := h2
                exact Or.inr ⟨q, List.mem_cons_of_mem p hq, hsq⟩

/-- A successful `astype` preserves the row count, the row order, and
every column whose key is not in the retyping dict. -/
theorem astype_ok :
    ∀ (dict : List (String × ValueKind)) (df df2 : DataFrame),
      MetarPandas.astype df dict = .ok df2 →
      df2.length = df.length ∧
      ∀ i k, k ∉ dict.map Prod.fst →
        (df2.get? i).map (fun row => getCell row k) =
          (df.get? i).map (fun row => getCell row k) := by
  intro dict
  induction dict with
  | nil =>
      intro df df2 h
      simp only [MetarPandas.astype] at h
      cases h
      exact ⟨rfl, by intro i k _; rfl⟩
  | cons kv rest ih =>
      intro df df2 h
      obtain ⟨k0, vk0⟩ := kv
      simp only [MetarPandas.astype] at h
      split at h
      · exact absurd h (by simp)
      · rename_i df1 hap
        obtain ⟨ihlen, ihpt⟩ := ih df1 df2 h
        obtain ⟨aplen, appt⟩ := applyColumn_ok k0 (coerceCell vk0) df df1 hap
        refine ⟨by rw [ihlen, aplen], ?_⟩
        intro i k hk
        have hk0 : k ≠ k0 := by
          intro hkk
          exact hk (by simp [hkk])
        have hkrest : k ∉ rest.map Prod.fst := by
          intro hkk
          exact hk (by simp [hkk])
        rw [ihpt i k hkrest]
        exact appt i k hk0

/-- The entries whose `value_type` is a dataclass are exactly the members
of the static list `get_values_with_dataclass`. -/
theorem dataclass_mem : ∀ (t : MetarPropertyType) (d : DataclassKind),
    t.get_value_type = ValueKind.dataclass d →
    t ∈ MetarPropertyType.get_values_with_dataclass := by decide

/-- An entry with a primitive `value_type` is neither in the dataclass
list nor RUNWAY_WINDSHEAR. -/
theorem prim_not_dataclass : ∀ (t : MetarPropertyType) (k : PrimKind),
    t.get_value_type = ValueKind.prim k →
    t ∉ MetarPropertyType.get_values_with_dataclass ∧
      t ≠ MetarPropertyType.RUNWAY_WINDSHEAR := by decide

/-- Formatting with a single compound-record property is exactly the
column-wise `from_dict` expansion of that property's column. -/
theorem format_dataframe_compound (df : DataFrame) (p : MetarProperty)
    (d : DataclassKind) (h : p.type.get_value_type = .dataclass d) :
    MetarPandas.format_dataframe df [p] =
      applyColumn p.toCanonicalString (transformCompound (.dataclass d)) df := by
  have hmem := dataclass_mem p.type d h
  cases hap : applyColumn p.toCanonicalString
      (transformCompound (ValueKind.dataclass d)) df with
  | error e =>
      simp [MetarPandas.format_dataframe, MetarPandas.format_loop,
        MetarPandas.infer_objects, hmem, h, hap]
  | ok df1 =>
      simp [MetarPandas.format_dataframe, MetarPandas.format_loop,
        MetarPandas.astype, MetarPandas.infer_objects, hmem, h, hap]

/-- C6: a compound-record cell holding a collection of key/value maps is
converted into one structured record per map, in order (so nulls in a map
and sub-fields absent from a map yield null sub-field values rather than
failures); the formatter applies exactly this conversion to the compound
property's column; and on the specification's runway-visibility example
two records are produced, preserving order and nulls, while a map lacking
a declared sub-field yields a record with that sub-field null. -/
theorem c6_compound_records :
    (∀ (vk : ValueKind) (maps : List JsonObject) (rs : List RecordValue),
      transformCompound vk (Value.arrayObj maps) = .ok (Value.records rs) →
      rs.length = maps.length ∧
      ∀ i m, maps.get? i = some m →
        ∃ r, rs.get? i = some r ∧ from_dict_value vk m = .ok r) ∧
    (∀ (df : DataFrame) (p : MetarProperty) (d : DataclassKind),
      p.type.get_value_type = .dataclass d →
      MetarPandas.format_dataframe df [p] =
        applyColumn p.toCanonicalString (transformCompound (.dataclass d)) df) ∧
    transformCompound (ValueKind.dataclass .runwayVisibility)
        (Value.arrayObj
          [[("runway", .str "09"), ("lowest_value", .num (mkRat 6 5)),
            ("highest_value", .num (mkRat 3 1))],
           [("runway", .str "27"), ("lowest_value", .num (mkRat 4 5)),
            ("highest_value", .null)]]) =
      .ok (Value.records
        [.runwayVisibility ⟨some "09", some (mkRat 6 5), some (mkRat 3 1)⟩,
         .runwayVisibility ⟨some "27", some (mkRat 4 5), none⟩]) ∧
    from_dict .runwayVisibility [("runway", .str "31")] =
      .ok (.runwayVisibility ⟨some "31", none, none⟩) := by
  refine ⟨?_, format_dataframe_compound, by decide, by decide⟩
  intro vk maps rs h
  have hm : exMapM (from_dict_value vk) maps = .ok rs := by
    cases hm0 : exMapM (from_dict_value vk) maps with
    | error e => simp [transformCompound, hm0] at h
    | ok rs0 =>
        simp only [transformCompound, hm0, Except.ok.injEq, Value.records.injEq] at h
        rw [h]
  exact exMapM_ok (from_dict_value vk) maps rs hm

/-- Witness for C6 at the runway-visibility example. -/
theorem c6_compound_records_witness :
    transformCompound (ValueKind.dataclass .runwayVisibility)
        (Value.arrayObj
          [[("runway", .str "09"), ("lowest_value", .num (mkRat 6 5)),
            ("highest_value", .num (mkRat 3 1))],
           [("runway", .str "27"), ("lowest_value", .num (mkRat 4 5)),
            ("highest_value", .null)]]) =
      .ok (Value.records
        [.runwayVisibility ⟨some "09", some (mkRat 6 5), some (mkRat 3 1)⟩,
         .runwayVisibility ⟨some "27", some (mkRat 4 5), none⟩]) ∧
    ([RecordValue.runwayVisibility ⟨some "09", some (mkRat 6 5), some (mkRat 3 1)⟩,
      RecordValue.runwayVisibility ⟨some "27", some (mkRat 4 5), none⟩]).length =
      ([[("runway", Scalar.str "09"), ("lowest_value", Scalar.num (mkRat 6 5)),
         ("highest_value", Scalar.num (mkRat 3 1))],
        [("runway", Scalar.str "27"), ("lowest_value", Scalar.num (mkRat 4 5)),
         ("highest_value", Scalar.null)]] : List JsonObject).length ∧
    MetarPropertyType.RUNWAY_VISIBILITY.get_value_type =
      ValueKind.dataclass .runwayVisibility ∧
    MetarPandas.format_dataframe [] [{ type := .RUNWAY_VISIBILITY, unit := none }] =
      applyColumn
        (MetarProperty.toCanonicalString { type := .RUNWAY_VISIBILITY, unit := none })
        (transformCompound (.dataclass .runwayVisibility)) [] :=
  ⟨by decide,
    (c6_compound_records.1 (ValueKind.dataclass .runwayVisibility) _ _ (by decide)).1,
    by decide,
    c6_compound_records.2.1 [] { type := .RUNWAY_VISIBILITY, unit := none }
      .runwayVisibility (by decide)⟩

/-- C7 counterexample: REPORT_CORRECTION has scalar-primitive value
shape (`Optional[str]`), yet formatting a table whose report_correction
column holds a well-formed string cell fails with `TypeError` instead of
coercing the column: `astype` cannot interpret `typing.Optional[str]` as
a dtype, so "every requested property with scalar-primitive value shape
has its column coerced" is false of the program at this input. -/
theorem c7_counterexample :
    MetarPandas.format_dataframe
        [[("report_correction", Value.scalar (.str "COR"))]]
        [{ type := .REPORT_CORRECTION, unit := none }] = .error .typeError := by decide

/-- C7 amended: the formatter hands every requested scalar-primitive
property's column to the `astype` coercion of its declared type, and
leaves a list-of-primitive (RUNWAY_WINDSHEAR) request completely
unconverted; for the str/float/int kinds this coerces values — a
float-column string "12.5" becomes exactly 12.5, and a non-numeric
string fails the whole formatting with the `ValueError` modelling
TypeCoercionError instead of nulling the cell — but the `Optional[str]`
kind of report_correction always fails with `TypeError` (uninterpretable
dtype), and the unit-less datetime kind never passes values through
(version-dependent convert-or-raise, modelled as the modern-pandas
`ValueError`). -/
theorem c7_scalar_coercion_amended :
    (∀ (df : DataFrame) (p : MetarProperty) (k : PrimKind),
      p.type.get_value_type = .prim k →
      MetarPandas.format_dataframe df [p] =
        applyColumn p.toCanonicalString (coerceCell (.prim k)) df) ∧
    (∀ (df : DataFrame) (p : MetarProperty), p.type = .RUNWAY_WINDSHEAR →
      MetarPandas.format_dataframe df [p] = .ok df) ∧
    coerceScalar (ValueKind.prim .float) (.str "12.5") = .ok (.num (mkRat 25 2)) ∧
    MetarPandas.format_dataframe [[("visibility [M]", Value.scalar (.str "abc"))]]
        [{ type := .VISIBILITY, unit := some (.dist .METERS) }] =
      .error .valueError ∧
    (∀ sc : Scalar, coerceScalar (ValueKind.prim .optString) sc = .error .typeError) ∧
    (∀ sc : Scalar, coerceScalar (ValueKind.prim .datetime) sc = .error .valueError) := by
  refine ⟨?_, ?_, by decide, by decide, ?_, ?_⟩
  · intro df p k h
    obtain ⟨hnot, hnw⟩ := prim_not_dataclass p.type k h
    cases hap : applyColumn p.toCanonicalString (coerceCell (ValueKind.prim k)) df with
    | error e =>
        simp [MetarPandas.format_dataframe, MetarPandas.format_loop, MetarPandas.astype,
          MetarPandas.infer_objects, MetarPandas.dictInsert, hnot, hnw, h, hap]
    | ok df1 =>
        simp [MetarPandas.format_dataframe, MetarPandas.format_loop, MetarPandas.astype,
          MetarPandas.infer_objects, MetarPandas.dictInsert, hnot, hnw, h, hap]
  · intro df p hp
    have hnot : MetarPropertyType.RUNWAY_WINDSHEAR ∉
        MetarPropertyType.get_values_with_dataclass := by decide
    simp [MetarPandas.format_dataframe, MetarPandas.format_loop, MetarPandas.astype,
      MetarPandas.infer_objects, hnot, hp]
  · intro sc
    cases sc <;> rfl
  · intro sc
    cases sc <;> rfl

/-- Witness for the amended C7: a float column routed through coercion of
a numeric string, an untouched windshear column, and the two failing
kinds at concrete cells. -/
theorem c7_scalar_coercion_amended_witness :
    MetarPropertyType.VISIBILITY.get_value_type = ValueKind.prim .float ∧
    MetarPandas.format_dataframe [[("visibility [M]", Value.scalar (.str "12.5"))]]
        [{ type := .VISIBILITY, unit := some (.dist .METERS) }] =
      applyColumn
        (MetarProperty.toCanonicalString
          { type := .VISIBILITY, unit := some (.dist .METERS) })
        (coerceCell (ValueKind.prim .float))
        [[("visibility [M]", Value.scalar (.str "12.5"))]] ∧
    MetarPandas.format_dataframe [[("runway_windshear", Value.arrayScalar [.str "R09"])]]
        [{ type := .RUNWAY_WINDSHEAR, unit := none }] =
      .ok [[("runway_windshear", Value.arrayScalar [.str "R09"])]] ∧
    coerceScalar (ValueKind.prim .optString) (.str "COR") = .error .typeError ∧
    coerceScalar (ValueKind.prim .datetime) (.str "2020-01-01") = .error .valueError :=
  ⟨by decide,
    c7_scalar_coercion_amended.1 _ { type := .VISIBILITY, unit := some (.dist .METERS) }
      .float (by decide),
    c7_scalar_coercion_amended.2.1 _ { type := .RUNWAY_WINDSHEAR, unit := none } (by decide),
    c7_scalar_coercion_amended.2.2.2.2.1 (.str "COR"),
    c7_scalar_coercion_amended.2.2.2.2.2 (.str "2020-01-01")⟩

/-- C8: a successful `format_dataframe` returns a table with exactly the
input's row count and row order (the i-th output row is the transform of
the i-th input row), and every column whose key is not the canonical
string of some requested property is passed through with its values
unchanged. -/
theorem c8_frame_preservation :
    ∀ (df : DataFrame) (props : List MetarProperty) (df2 : DataFrame),
      MetarPandas.format_dataframe df props = .ok df2 →
      df2.length = df.length ∧
      ∀ i k, (∀ p ∈ props, MetarProperty.toCanonicalString p ≠ k) →
        (df2.get? i).map (fun row => getCell row k) =
          (df.get? i).map (fun row => getCell row k) := by
  intro df props df2 h
  cases hloop : MetarPandas.format_loop (MetarPandas.infer_objects df) [] props with
  | error e => simp [MetarPandas.format_dataframe, hloop] at h
  | ok pr =>
      obtain ⟨df1, dict⟩ := pr
      simp only [MetarPandas.format_dataframe, hloop] at h
      obtain ⟨looplen, looppt, loopdict⟩ :=
        format_loop_ok props (MetarPandas.infer_objects df) [] df1 dict hloop
      obtain ⟨astlen, astpt⟩ := astype_ok dict df1 df2 h
      constructor
      · rw [astlen, looplen]
        rfl
      · intro i k hk
        have hkd : k ∉ dict.map Prod.fst := by
          intro hkk
          cases loopdict k hkk with
          | inl h2 => simp at h2
          | inr h2 =>
              obtain ⟨p, hp, hkp⟩ := h2
              exact hk p hp hkp.symm
        rw [astpt i k hkd]
        exact looppt i k hk

/-- Witness for C8 on a concrete two-row table with a pass-through column. -/
theorem c8_frame_preservation_witness :
    MetarPandas.format_dataframe
        [[("station_id", Value.scalar (.str "EDDF")),
          ("visibility [M]", Value.scalar (.str "12.5"))],
         [("station_id", Value.scalar (.str "EDDM")),
          ("visibility [M]", Value.scalar (.num 7))]]
        [{ type := .VISIBILITY, unit := some (.dist .METERS) }] =
      .ok [[("station_id", Value.scalar (.str "EDDF")),
            ("visibility [M]", Value.scalar (.num (mkRat 25 2)))],
           [("station_id", Value.scalar (.str "EDDM")),
            ("visibility [M]", Value.scalar (.num 7))]] ∧
    ([[("station_id", Value.scalar (.str "EDDF")),
       ("visibility [M]", Value.scalar (.num (mkRat 25 2)))],
      [("station_id", Value.scalar (.str "EDDM")),
       ("visibility [M]", Value.scalar (.num 7))]] : DataFrame).length =
      ([[("station_id", Value.scalar (.str "EDDF")),
         ("visibility [M]", Value.scalar (.str "12.5"))],
        [("station_id", Value.scalar (.str "EDDM")),
         ("visibility [M]", Value.scalar (.num 7))]] : DataFrame).length :=
  ⟨by decide,
    (c8_frame_preservation _ [{ type := .VISIBILITY, unit := some (.dist .METERS) }] _
      (by decide)).1⟩

end Metar
